import Mathlib

set_option linter.unusedVariables false

/-!
Verification development for the poofballai conversational backend
(`src/python/server/server.py` with components `agent.py`, `memory.py`,
`voice.py`).  The Python pipeline is shallowly embedded: pure computations
(prompt assembly, context aggregation, LLM-output parsing, response assembly)
become Lean functions, and the three external collaborators (vector retrieval,
LLM completion, speech synthesis) become oracle values describing each
outcome of the corresponding network call.  An uncaught Python exception is
modelled as `Except.error`.
-/

/-- A JSON value, modelling the possible results of Python `json.loads`
(objects keep their key/value pairs in textual order; a repeated key in the
source text leaves the last value in the Python dict, which `json_get`
reproduces by searching the reversed field list). -/
inductive Json where
  | null
  | bool (b : Bool)
  | num (n : Int)
  | str (s : String)
  | arr (elems : List Json)
  | obj (fields : List (String × Json))

/-- Python `dict.get(key)` on a dict built by `json.loads`: the value of the
last binding of `key`, or `none` when the key is absent. -/
def json_get (fields : List (String × Json)) (key : String) : Option Json :=
  List.lookup key fields.reverse

/-- Python `str.strip()` with no argument: drop leading and trailing
whitespace.  (Python also strips some further Unicode whitespace;
the pipeline only ever needs ASCII whitespace.) -/
def pyStrip (s : String) : String :=
  String.mk (((s.toList.dropWhile Char.isWhitespace).reverse.dropWhile
    Char.isWhitespace).reverse)

/-- Python `sep.join(xs)` on a list of strings. -/
def pyJoin (sep : String) : List String → String
  | [] => ""
  | [x] => x
  | x :: xs => x ++ sep ++ pyJoin sep xs

/-- Python `v.strip()` where `v` came out of a parsed JSON object: succeeds
(with the stripped string) only when `v` is a string; any other value makes
the attribute access raise, modelled as `none`. -/
def json_str_strip : Json → Option String
  | Json.str s => some (pyStrip s)
  | _ => none

/-- The body of the `try` block of `server.py` lines 237-243: extract
`long_answer` and `short_answer` (defaulting to `""`, then `.strip()`), and
`media_urls` (defaulting to `[]`, coerced to `[]` unless it is a list).
`none` models any exception inside the block: `.get` on a non-dict value, or
`.strip()` on a non-string field value. -/
def try_parse (parsed : Json) : Option (String × String × List Json) :=
  match parsed with
  | Json.obj fields =>
    match json_str_strip ((json_get fields "long_answer").getD (Json.str "")) with
    | none => none
    | some long_answer =>
      match json_str_strip ((json_get fields "short_answer").getD (Json.str "")) with
      | none => none
      | some short_answer =>
        match (json_get fields "media_urls").getD (Json.arr []) with
        | Json.arr xs => some (long_answer, short_answer, xs)
        | _ => some (long_answer, short_answer, [])
  | _ => none

/-- `server.py` lines 232-248: parse the raw LLM output.  `parsed` is the
result of `json.loads raw_llm_output` (`none` when `json.loads` raises).  On
any exception in the `try` block the `except` branch reassigns all three
variables: `long_answer := raw_llm_output`, `short_answer := "Here is a short
summary."`, `media_urls := []`. -/
def parse_llm_output (parsed : Option Json) (raw_llm_output : String) :
    String × String × List Json :=
  match parsed with
  | none => (raw_llm_output, "Here is a short summary.", [])
  | some p =>
    match try_parse p with
    | none => (raw_llm_output, "Here is a short summary.", [])
    | some r => r

/-- One Pinecone match as `server.py`/`memory.py` consume it: the `metadata`
dict may carry a `"text"` string and a `"urls"` list of strings (the only two
keys the code reads); `id` and the debug-only float `score` do not influence
the response, so `score` is omitted. -/
structure PMatch where
  id : String
  text : Option String
  urls : Option (List String)

/-- A Pinecone `QueryResponse` as used by the code: its `namespace` string
and its `matches` field, which may be `None`. -/
structure QueryResults where
  ns : String
  match_list : Option (List PMatch)

/-- An HTTP response from `requests.post`: status code and body bytes. -/
structure HttpResp where
  status_code : Nat
  content : List Nat

/-- `memory.py` lines 15-61, `Memory.retrieve_context`: the whole body is one
`try` block around the embed and query network calls (`outcome` is what they
produce: `Except.error` when either raises); on success the raw results are
returned, on any exception the sentinel `None` is returned. -/
def retrieve_context (outcome : Except Unit QueryResults) : Option QueryResults :=
  match outcome with
  | Except.ok results => some results
  | Except.error _ => none

/-- `server.py` lines 171-184: the context accumulated from one match —
its metadata text (plus a blank line) when present, then its URL list joined
with newlines under a fixed header when present. -/
def match_context (m : PMatch) : String :=
  (match m.text with
   | some t => t ++ "\n\n"
   | none => "") ++
  (match m.urls with
   | some us => "Possible relevant URLs:\n" ++ pyJoin "\n" us ++ "\n\n"
   | none => "")

/-- `server.py` lines 164-184: fold the per-match context over the match list
in order, starting from the empty string. -/
def gather_context (ms : List PMatch) : String :=
  ms.foldl (fun acc m => acc ++ match_context m) ""

/-- The fixed text of the `server.py` prompt f-string (lines 187-211) before
the interpolated `user_message`. -/
def server_prompt_pre : String :=
  "\nYou are Version One, a virtual representation of Michal Hlavac. \nYou are talking to the user as Michal may speak in first person on Michal\x27s behalf.\n\nUser question:\n"

/-- The fixed text of the `server.py` prompt f-string between `user_message`
and `context_str`. -/
def server_prompt_mid : String :=
  "\n\nRelevant context:\n"

/-- The fixed text of the `server.py` prompt f-string after `context_str`. -/
def server_prompt_suf : String :=
  "\n\nGenerate a STRICT JSON object with the keys \"long_answer\", \"short_answer\", and \"media_urls\". Example:\n\x7b\n  \"long_answer\": \"...\",\n  \"short_answer\": \"...\",\n  \"media_urls\": [\"...\", \"...\"]\n\x7d\n\nWhere:\n- long_answer is a very short response to the user, using the context if relevant\n- short_answer is a concise summary\n- media_urls is a list of one or more URLs IF relevant, otherwise an empty list.\n\nNote: If any URLs in the context are relevant, please include them in \"media_urls\". \nOutput ONLY valid JSON, with no extra commentary.\n"

/-- `server.py` lines 187-211: the prompt passed to the LLM as the single
`HumanMessage`, interpolating the user message and the gathered context. -/
def server_prompt (user_message context_str : String) : String :=
  server_prompt_pre ++ user_message ++ server_prompt_mid ++ context_str ++
    server_prompt_suf

/-- `server.py` lines 81-100, `generate_elevenlabs_tts`: POST the text to
ElevenLabs (`post` is the outcome of `requests.post`, `Except.error` when the
transport raises — the function has no `try`, so that exception propagates),
return the mp3 bytes on status 200 and `None` otherwise. -/
def generate_elevenlabs_tts (text_to_speak : String)
    (post : Except Unit HttpResp) : Except Unit (Option (List Nat)) :=
  match post with
  | Except.error e => Except.error e
  | Except.ok response =>
    Except.ok (if response.status_code = 200 then some response.content else none)

/-- `voice.py` lines 12-33, `Voice.generate_tts`: identical control flow to
`generate_elevenlabs_tts` (no `try` around `requests.post`; status 200 yields
the bytes, any other status yields `None`). -/
def generate_tts (text_to_speak : String)
    (post : Except Unit HttpResp) : Except Unit (Option (List Nat)) :=
  match post with
  | Except.error e => Except.error e
  | Except.ok response =>
    Except.ok (if response.status_code = 200 then some response.content else none)

/-- The outcomes of the external collaborators and ambient values for one
`/chat` request: `retrieval` is what the Pinecone embed-and-query `try` block
produces, `llm` what `llm.predict_messages` produces, `loads` the behavior of
`json.loads` on each string (`none` = raises), `tts_post` the outcome of the
`requests.post` inside `generate_elevenlabs_tts`, `uuid_hex` the value of
`uuid.uuid4().hex`, and `host_url` the value of `request.host_url`. -/
structure Oracles where
  retrieval : Except Unit QueryResults
  llm : Except Unit String
  loads : String → Option Json
  tts_post : Except Unit HttpResp
  uuid_hex : String
  host_url : String

/-- The JSON body `jsonify` serializes for the `/chat` route, together with
the HTTP status (`jsonify` of a dict always yields 200). -/
structure ChatResponse where
  long_response : String
  short_response : String
  audio_url : String
  media_urls : List Json
  status : Nat

/-- Which collaborator calls the request made and with what input:
`retrieval_query` the string embedded by Pinecone, `llm_prompt` the prompt
string sent to the LLM, `tts_input` the text sent to speech synthesis;
`none` means that collaborator was never invoked. -/
structure Trace where
  retrieval_query : Option String
  llm_prompt : Option String
  tts_input : Option String

/-- `server.py` lines 105-271, the `/chat` route.  `message` is the request
body field `"message"` (`none` when absent; `data.get("message", "")`).
Debug prints and the mp3 file write have no effect on the response and are
dropped.  The result is `Except.error` exactly when an uncaught exception
escapes the handler (Flask then answers 500): the only such point is a
transport error in `generate_elevenlabs_tts`. -/
def chat (o : Oracles) (message : Option String) :
    Except Unit (ChatResponse × Trace) :=
  let user_message := pyStrip (message.getD "")
  if user_message = "" then
    Except.ok
      ({ long_response := "No message received.", short_response := "",
         audio_url := "", media_urls := [], status := 200 },
       { retrieval_query := none, llm_prompt := none, tts_input := none })
  else
    match o.retrieval with
    | Except.error _ =>
      Except.ok
        ({ long_response := "Error retrieving context from Pinecone.",
           short_response := "", audio_url := "", media_urls := [],
           status := 200 },
         { retrieval_query := some user_message, llm_prompt := none,
           tts_input := none })
    | Except.ok results =>
      let match_list := results.match_list.getD []
      let context_str := gather_context match_list
      let prompt := server_prompt user_message context_str
      match o.llm with
      | Except.error _ =>
        Except.ok
          ({ long_response := "Sorry, encountered an error generating the answer.",
             short_response := "", audio_url := "", media_urls := [],
             status := 200 },
           { retrieval_query := some user_message, llm_prompt := some prompt,
             tts_input := none })
      | Except.ok raw_llm_output =>
        match parse_llm_output (o.loads raw_llm_output) raw_llm_output with
        | (long_answer, short_answer, media_urls) =>
          match generate_elevenlabs_tts short_answer o.tts_post with
          | Except.error e => Except.error e
          | Except.ok audio_data =>
            let audio_url :=
              match audio_data with
              | none => ""
              | some bytes =>
                if bytes = [] then ""
                else o.host_url ++ "audio/" ++ ("audio_" ++ o.uuid_hex ++ ".mp3")
            Except.ok
              ({ long_response := long_answer, short_response := short_answer,
                 audio_url := audio_url, media_urls := media_urls,
                 status := 200 },
               { retrieval_query := some user_message,
                 llm_prompt := some prompt, tts_input := some short_answer })

/-- One entry of the `agent.py` list `conversation_history`: a dict
`\x7b"speaker": "user"/"agent", "text": "..."\x7d`. -/
structure Entry where
  speaker : String
  text : String

/-- A langchain chat message as `agent.py` builds them: `HumanMessage` (the
"from the user" role) or `AIMessage` (the "from the assistant" role), each
holding its `content` string. -/
inductive Message where
  | human (content : String)
  | ai (content : String)

/-- The fixed text of the `agent.py` prompt f-string (lines 67-91) before the
interpolated `user_message`. -/
def agent_prompt_pre : String :=
  "\nYou are Version One, a virtual representation of Michal Hlavac. \nYou are talking to the user as Michal would, in first person on Michal\x27s behalf.\n\nUser question:\n"

/-- The fixed text of the `agent.py` prompt f-string between `user_message`
and `context_str`. -/
def agent_prompt_mid : String :=
  "\n\nRelevant context:\n"

/-- The fixed text of the `agent.py` prompt f-string after `context_str`. -/
def agent_prompt_suf : String :=
  "\n\nGenerate a STRICT JSON object with the keys \"long_answer\", \"short_answer\", and \"media_urls\". Example:\n\x7b\n  \"long_answer\": \"...\",\n  \"short_answer\": \"...\",\n  \"media_urls\": [\"...\", \"...\"]\n\x7d\n\nWhere:\n- long_answer is a very short response to the user, using the context if relevant\n- short_answer is a concise summary\n- media_urls is a list of one or more URLs IF relevant, otherwise an empty list.\n\nIf any URLs in the context seem relevant, include them in \"media_urls\".\nOutput ONLY valid JSON, with no extra commentary.\n"

/-- `agent.py` lines 67-91: the final prompt combining the latest user
message with the retrieved context. -/
def agent_prompt (user_message context_str : String) : String :=
  agent_prompt_pre ++ user_message ++ agent_prompt_mid ++ context_str ++
    agent_prompt_suf

/-- `agent.py` lines 60-64: one message per history entry — a `HumanMessage`
when the speaker of the entry equals `"user"`, otherwise an `AIMessage`. -/
def entry_message (entry : Entry) : Message :=
  if entry.speaker = "user" then Message.human entry.text
  else Message.ai entry.text

/-- `agent.py` lines 48-92, the message-construction part of `Agent.run`:
map the conversation history in order through `entry_message`, then append
the combined final prompt as one last `HumanMessage` (the list then passed to
`self.llm.predict_messages`). -/
def run_messages (conversation_history : List Entry)
    (user_message context_str : String) : List Message :=
  conversation_history.map entry_message ++
    [Message.human (agent_prompt user_message context_str)]

/-- Claim C1 as stated is false on the missing-answer-field half: the raw
output `\x7b"short_answer": "x"\x7d` parses as JSON and lacks the required
`long_answer` field, yet the parsing step does not return the raw output as
the answer text (it returns the empty string, from the `.get` default). -/
theorem C1_counterexample :
    (parse_llm_output (some (Json.obj [("short_answer", Json.str "x")]))
        "\x7b\"short_answer\": \"x\"\x7d").1 ≠
      "\x7b\"short_answer\": \"x\"\x7d" := by
  decide

/-- Claim C1, amended: when the raw model output fails to parse as JSON, the
parsing step returns the fallback with the raw output verbatim as the answer
and an empty media list (and no exception escapes, the parse step being
total); but when the output parses as a JSON object that merely lacks the
answer field (its summary field, if any, extracting cleanly), the answer text
degrades to the empty string, not to the raw output. -/
theorem C1_parse_fallback :
    (∀ raw : String,
      parse_llm_output none raw = (raw, "Here is a short summary.", []))
    ∧ (∀ (raw t : String) (fields : List (String × Json)),
        json_get fields "long_answer" = none →
        json_str_strip ((json_get fields "short_answer").getD (Json.str "")) =
          some t →
        (parse_llm_output (some (Json.obj fields)) raw).1 = "") := by
  constructor
  · intro raw
    rfl
  · intro raw t fields h1 h2
    have e0 : json_str_strip (Json.str "") = some "" := by decide
    simp only [parse_llm_output, try_parse, h1, Option.getD_none, e0, h2]
    rcases hmu : (json_get fields "media_urls").getD (Json.arr []) <;> rfl

/-- Witness for `C1_parse_fallback` at concrete inputs: the non-JSON string
`"not json"` falls back to itself verbatim with empty media list, and an
object carrying only a `short_answer` field yields the empty answer text. -/
theorem C1_parse_fallback_witness :
    parse_llm_output none "not json" = ("not json", "Here is a short summary.", [])
    ∧ (parse_llm_output (some (Json.obj [("short_answer", Json.str "x")])) "raw").1 = "" :=
  ⟨C1_parse_fallback.1 "not json",
   C1_parse_fallback.2 "raw" "x" [("short_answer", Json.str "x")] rfl rfl⟩

/-- Claim C2: when the message is non-empty and the Pinecone retrieval block
raises, `chat` returns (no exception) the degraded response citing the
retrieval error with empty `media_urls`, and neither the LLM nor the
speech-synthesis collaborator is invoked (their trace entries are `none`). -/
theorem C2_retrieval_error_short_circuits (o : Oracles) (message : Option String)
    (hmsg : pyStrip (message.getD "") ≠ "")
    (hr : o.retrieval = Except.error ()) :
    chat o message =
      Except.ok
        ({ long_response := "Error retrieving context from Pinecone.",
           short_response := "", audio_url := "", media_urls := [],
           status := 200 },
         { retrieval_query := some (pyStrip (message.getD "")),
           llm_prompt := none, tts_input := none }) := by
  simp only [chat, if_neg hmsg, hr]

/-- Witness for `C2_retrieval_error_short_circuits` on a concrete request. -/
theorem C2_witness :
    chat { retrieval := Except.error (), llm := Except.ok "x",
           loads := fun _ => none, tts_post := Except.ok ⟨200, [1]⟩,
           uuid_hex := "h", host_url := "http://h/" } (some "hello") =
      Except.ok
        ({ long_response := "Error retrieving context from Pinecone.",
           short_response := "", audio_url := "", media_urls := [],
           status := 200 },
         { retrieval_query := some "hello", llm_prompt := none,
           tts_input := none }) :=
  C2_retrieval_error_short_circuits _ (some "hello") (by decide) rfl

/-- Claim C3: for every history, latest user message and context string, the
message construction of `Agent.run` yields exactly `H+1` messages; each prior
turn keeps its position with `"user"` turns as `HumanMessage` and `"agent"`
turns as `AIMessage`; the final element is always a `HumanMessage` whose
content embeds the latest user text and the retrieved context. -/
theorem C3_prompt_messages (hist : List Entry) (u c : String) :
    (run_messages hist u c).length = hist.length + 1
    ∧ (∀ i (hi : i < hist.length),
        ((hist.get ⟨i, hi⟩).speaker = "user" →
          (run_messages hist u c)[i]? =
            some (Message.human (hist.get ⟨i, hi⟩).text))
        ∧ ((hist.get ⟨i, hi⟩).speaker = "agent" →
          (run_messages hist u c)[i]? =
            some (Message.ai (hist.get ⟨i, hi⟩).text)))
    ∧ (run_messages hist u c).getLast? =
        some (Message.human (agent_prompt u c))
    ∧ ∃ a b d, agent_prompt u c = a ++ u ++ b ++ c ++ d := by
  refine ⟨by simp [run_messages], ?_, ?_, agent_prompt_pre, agent_prompt_mid,
    agent_prompt_suf, rfl⟩
  · intro i hi
    have hidx : (run_messages hist u c)[i]? =
        some (entry_message (hist.get ⟨i, hi⟩)) := by
      rw [run_messages, List.getElem?_append, if_pos (by simpa using hi),
        List.getElem?_map, List.getElem?_eq_getElem hi]
      simp [List.get_eq_getElem]
    constructor
    · intro hs
      rw [List.get_eq_getElem] at hs
      rw [hidx]
      simp [entry_message, hs]
    · intro hs
      rw [List.get_eq_getElem] at hs
      rw [hidx]
      simp [entry_message, hs, show ("agent" : String) ≠ "user" by decide]
  · rw [run_messages]
    exact List.getLast?_concat _

/-- Witness for `C3_prompt_messages` on a two-turn history. -/
theorem C3_witness :
    (run_messages [⟨"user", "a"⟩, ⟨"agent", "b"⟩] "q" "ctx").length = 2 + 1
    ∧ (run_messages [⟨"user", "a"⟩, ⟨"agent", "b"⟩] "q" "ctx")[0]? =
        some (Message.human "a")
    ∧ (run_messages [⟨"user", "a"⟩, ⟨"agent", "b"⟩] "q" "ctx")[1]? =
        some (Message.ai "b") :=
  ⟨(C3_prompt_messages [⟨"user", "a"⟩, ⟨"agent", "b"⟩] "q" "ctx").1,
   ((C3_prompt_messages [⟨"user", "a"⟩, ⟨"agent", "b"⟩] "q" "ctx").2.1 0
      (by decide)).1 rfl,
   ((C3_prompt_messages [⟨"user", "a"⟩, ⟨"agent", "b"⟩] "q" "ctx").2.1 1
      (by decide)).2 rfl⟩

/-- Claim C4 as stated is false: feeding the parser the well-formed JSON
object with key `conversation_answer` does not yield `"hi"` as the answer
text — the code extracts the `long_answer` key, so the answer degrades to the
empty string (though the URL list is preserved). -/
theorem C4_counterexample :
    (parse_llm_output
        (some (Json.obj [("conversation_answer", Json.str "hi"),
                         ("media_urls", Json.arr [Json.str "http://x"])]))
        "\x7b\"conversation_answer\": \"hi\", \"media_urls\": [\"http://x\"]\x7d").1 ≠
      "hi" := by
  decide

/-- Claim C4, amended: the answer key the parser recognizes is
`long_answer`, not `conversation_answer`; feeding it
`\x7b"long_answer": "hi", "media_urls": ["http://x"]\x7d` round-trips that
answer and that URL list unchanged (the summary field defaulting to ""). -/
theorem C4_roundtrip :
    parse_llm_output
        (some (Json.obj [("long_answer", Json.str "hi"),
                         ("media_urls", Json.arr [Json.str "http://x"])]))
        "\x7b\"long_answer\": \"hi\", \"media_urls\": [\"http://x\"]\x7d" =
      ("hi", "", [Json.str "http://x"]) := rfl

/-- Claim C6 as stated is false on the transport-error half: when the
`requests.post` inside the TTS call raises (no `try` surrounds it), the
exception escapes the handler (`Except.error`), so the request does not
complete with a full response — Flask answers 500.  Concrete input: a
non-empty message, successful retrieval and LLM call, transport error on
synthesis. -/
theorem C6_counterexample :
    chat { retrieval := Except.ok ⟨"ns1", some []⟩, llm := Except.ok "hello",
           loads := fun _ => none, tts_post := Except.error (),
           uuid_hex := "h", host_url := "http://localhost:5000/" }
      (some "hi") = Except.error () := rfl

/-- Claim C6, amended: when the TTS provider returns a response whose status
is not 200 (in particular any non-2xx response), only `audio_url` degrades to
the empty string — the answer fields, `media_urls` and the 200 status are the
same as with a successful synthesis — and no exception escapes; but a
*transport* error in the synthesis call is not caught and fails the
request. -/
theorem C6_tts_degrades_only_audio (o : Oracles) (message : Option String)
    (r : QueryResults) (raw : String) (resp resp2 : HttpResp)
    (hmsg : pyStrip (message.getD "") ≠ "")
    (hr : o.retrieval = Except.ok r) (hl : o.llm = Except.ok raw)
    (hfail : resp.status_code ≠ 200)
    (hok : resp2.status_code = 200) (hnz : resp2.content ≠ []) :
    ∃ res tr res2 tr2,
      chat { o with tts_post := Except.ok resp } message = Except.ok (res, tr)
      ∧ chat { o with tts_post := Except.ok resp2 } message = Except.ok (res2, tr2)
      ∧ res.audio_url = ""
      ∧ res.long_response = res2.long_response
      ∧ res.short_response = res2.short_response
      ∧ res.media_urls = res2.media_urls
      ∧ res.status = 200 ∧ res2.status = 200 := by
  have h1 : chat { o with tts_post := Except.ok resp } message =
      Except.ok
        ({ long_response := (parse_llm_output (o.loads raw) raw).1,
           short_response := (parse_llm_output (o.loads raw) raw).2.1,
           audio_url := "",
           media_urls := (parse_llm_output (o.loads raw) raw).2.2,
           status := 200 },
         { retrieval_query := some (pyStrip (message.getD "")),
           llm_prompt := some (server_prompt (pyStrip (message.getD ""))
             (gather_context (r.match_list.getD []))),
           tts_input := some (parse_llm_output (o.loads raw) raw).2.1 }) := by
    simp only [chat, if_neg hmsg, hr, hl, generate_elevenlabs_tts,
      if_neg hfail]
  have h2 : chat { o with tts_post := Except.ok resp2 } message =
      Except.ok
        ({ long_response := (parse_llm_output (o.loads raw) raw).1,
           short_response := (parse_llm_output (o.loads raw) raw).2.1,
           audio_url := o.host_url ++ "audio/" ++
             ("audio_" ++ o.uuid_hex ++ ".mp3"),
           media_urls := (parse_llm_output (o.loads raw) raw).2.2,
           status := 200 },
         { retrieval_query := some (pyStrip (message.getD "")),
           llm_prompt := some (server_prompt (pyStrip (message.getD ""))
             (gather_context (r.match_list.getD []))),
           tts_input := some (parse_llm_output (o.loads raw) raw).2.1 }) := by
    simp only [chat, if_neg hmsg, hr, hl, generate_elevenlabs_tts,
      if_pos hok, if_neg hnz]
  exact ⟨_, _, _, _, h1, h2, rfl, rfl, rfl, rfl, rfl, rfl⟩

/-- Witness for `C6_tts_degrades_only_audio` on a concrete request: a 404
provider response degrades only the audio URL relative to a 200 response. -/
theorem C6_witness :
    ∃ res tr res2 tr2,
      chat { retrieval := Except.ok ⟨"ns1", some []⟩, llm := Except.ok "out",
             loads := fun _ => none, tts_post := Except.ok ⟨404, []⟩,
             uuid_hex := "h", host_url := "http://h/" } (some "hi") =
          Except.ok (res, tr)
      ∧ chat { retrieval := Except.ok ⟨"ns1", some []⟩, llm := Except.ok "out",
               loads := fun _ => none, tts_post := Except.ok ⟨200, [7]⟩,
               uuid_hex := "h", host_url := "http://h/" } (some "hi") =
          Except.ok (res2, tr2)
      ∧ res.audio_url = ""
      ∧ res.long_response = res2.long_response
      ∧ res.short_response = res2.short_response
      ∧ res.media_urls = res2.media_urls
      ∧ res.status = 200 ∧ res2.status = 200 :=
  C6_tts_degrades_only_audio
    ⟨Except.ok ⟨"ns1", some []⟩, Except.ok "out", fun _ => none,
      Except.ok ⟨999, []⟩, "h", "http://h/"⟩
    (some "hi") ⟨"ns1", some []⟩ "out" ⟨404, []⟩ ⟨200, [7]⟩
    (by decide) rfl rfl (by decide) rfl (by decide)

/-- Claim C5: a `/chat` request whose message field is missing or strips to
the empty string returns HTTP 200 with the placeholder answer, empty
summary, empty `audio_url` and empty `media_urls`, and no collaborator is
invoked (all trace entries are `none`). -/
theorem C5_empty_message (o : Oracles) (message : Option String)
    (hmsg : pyStrip (message.getD "") = "") :
    chat o message =
      Except.ok
        ({ long_response := "No message received.", short_response := "",
           audio_url := "", media_urls := [], status := 200 },
         { retrieval_query := none, llm_prompt := none, tts_input := none }) := by
  simp only [chat, if_pos hmsg]

/-- The context blob gathered from zero matches is the empty string. -/
theorem gather_context_nil : gather_context [] = "" := rfl

/-- Claim C7: `Memory.retrieve_context` returns the sentinel `None` on
provider failure, distinct from every successful result (in particular from a
result with zero matches); and a `/chat` request whose retrieval succeeds
with zero matches still sends the LLM a prompt built from the empty context
blob. -/
theorem C7_failure_vs_zero_matches :
    (∀ q : QueryResults,
      retrieve_context (Except.error ()) ≠ retrieve_context (Except.ok q))
    ∧ (∀ (o : Oracles) (message : Option String) (r : QueryResults)
        (res : ChatResponse × Trace),
        pyStrip (message.getD "") ≠ "" →
        o.retrieval = Except.ok r →
        r.match_list.getD [] = [] →
        chat o message = Except.ok res →
        res.2.llm_prompt =
          some (server_prompt (pyStrip (message.getD "")) "")) := by
  constructor
  · intro q h
    exact Option.noConfusion h
  · intro o message r res hmsg hr hz hok
    rcases hl : o.llm with e | raw
    · simp only [chat, if_neg hmsg, hr, hl, hz, gather_context_nil] at hok
      injection hok with hok
      rw [← hok]
    · rcases ht : o.tts_post with e | resp
      · simp only [chat, if_neg hmsg, hr, hl, hz, gather_context_nil,
          generate_elevenlabs_tts, ht] at hok
        exact Except.noConfusion hok
      · simp only [chat, if_neg hmsg, hr, hl, hz, gather_context_nil,
          generate_elevenlabs_tts, ht] at hok
        injection hok with hok
        rw [← hok]

/-- Witness for `C7_failure_vs_zero_matches` at concrete inputs. -/
theorem C7_witness :
    retrieve_context (Except.error ()) ≠
      retrieve_context (Except.ok ⟨"ns1", some []⟩)
    ∧ (({ long_response := "out", short_response := "Here is a short summary.",
          audio_url := "", media_urls := [], status := 200 },
        { retrieval_query := some "hi",
          llm_prompt := some (server_prompt "hi" ""),
          tts_input := some "Here is a short summary." }) :
          ChatResponse × Trace).2.llm_prompt = some (server_prompt "hi" "") :=
  ⟨C7_failure_vs_zero_matches.1 ⟨"ns1", some []⟩,
   C7_failure_vs_zero_matches.2
     ⟨Except.ok ⟨"ns1", some []⟩, Except.ok "out", fun _ => none,
       Except.ok ⟨404, []⟩, "h", "http://h/"⟩
     (some "hi") ⟨"ns1", some []⟩ _ (by decide) rfl rfl rfl⟩

/-- Claim C8: for model output that parses as JSON, a present but non-list
media-URL field is coerced to the empty list (whether or not the answer
fields extract cleanly — no type error reaches the caller either way, the
parse step being total), and the extracted answer and summary fields have
surrounding whitespace trimmed. -/
theorem C8_media_coercion_and_trim :
    (∀ (raw : String) (fields : List (String × Json)) (v : Json),
        json_get fields "media_urls" = some v →
        (∀ xs, v ≠ Json.arr xs) →
        (parse_llm_output (some (Json.obj fields)) raw).2.2 = [])
    ∧ (∀ (raw la sa : String) (fields : List (String × Json)),
        json_get fields "long_answer" = some (Json.str la) →
        json_get fields "short_answer" = some (Json.str sa) →
        (parse_llm_output (some (Json.obj fields)) raw).1 = pyStrip la
        ∧ (parse_llm_output (some (Json.obj fields)) raw).2.1 = pyStrip sa) := by
  constructor
  · intro raw fields v hv hne
    simp only [parse_llm_output, try_parse, hv, Option.getD_some]
    rcases h1 : json_str_strip ((json_get fields "long_answer").getD (Json.str ""))
      with _ | la
    · rfl
    · rcases h2 : json_str_strip ((json_get fields "short_answer").getD (Json.str ""))
        with _ | sa
      · rfl
      · cases v with
        | arr xs => exact absurd rfl (hne xs)
        | null => rfl
        | bool b => rfl
        | num n => rfl
        | str s => rfl
        | obj fs => rfl
  · intro raw la sa fields hla hsa
    simp only [parse_llm_output, try_parse, hla, hsa, Option.getD_some,
      json_str_strip]
    rcases hmu : (json_get fields "media_urls").getD (Json.arr []) <;>
      exact ⟨rfl, rfl⟩

/-- Witness for `C8_media_coercion_and_trim` at concrete inputs: a string
where the list should be is coerced to `[]`, and answer fields are
whitespace-trimmed. -/
theorem C8_witness :
    (parse_llm_output
        (some (Json.obj [("long_answer", Json.str "a"),
                         ("media_urls", Json.str "http://x")])) "raw").2.2 = []
    ∧ (parse_llm_output
        (some (Json.obj [("long_answer", Json.str " a "),
                         ("short_answer", Json.str " b ")])) "raw").1 =
        pyStrip " a " :=
  ⟨C8_media_coercion_and_trim.1 "raw"
     [("long_answer", Json.str "a"), ("media_urls", Json.str "http://x")]
     (Json.str "http://x") rfl (fun xs h => Json.noConfusion h),
   (C8_media_coercion_and_trim.2 "raw" " a " " b "
     [("long_answer", Json.str " a "), ("short_answer", Json.str " b ")]
     rfl rfl).1⟩

/-- Claim C9: when `json.loads` fails on the model output, the returned
`short_response` is the fixed placeholder `"Here is a short summary."`
(whatever the raw output was), and that placeholder — not the raw answer
text — is the string handed to speech synthesis. -/
theorem C9_parse_failure_placeholder (o : Oracles) (message : Option String)
    (r : QueryResults) (raw : String) (res : ChatResponse × Trace)
    (hmsg : pyStrip (message.getD "") ≠ "")
    (hr : o.retrieval = Except.ok r) (hl : o.llm = Except.ok raw)
    (hp : o.loads raw = none)
    (hok : chat o message = Except.ok res) :
    res.1.short_response = "Here is a short summary."
    ∧ res.2.tts_input = some "Here is a short summary." := by
  rcases ht : o.tts_post with e | resp
  · simp only [chat, if_neg hmsg, hr, hl, hp, parse_llm_output,
      generate_elevenlabs_tts, ht] at hok
    exact Except.noConfusion hok
  · simp only [chat, if_neg hmsg, hr, hl, hp, parse_llm_output,
      generate_elevenlabs_tts, ht] at hok
    injection hok with hok
    rw [← hok]
    exact ⟨rfl, rfl⟩

/-- Witness for `C9_parse_failure_placeholder` on a concrete request whose
LLM output is not JSON. -/
theorem C9_witness :
    (({ long_response := "not json",
        short_response := "Here is a short summary.", audio_url := "",
        media_urls := [], status := 200 },
      { retrieval_query := some "hi",
        llm_prompt := some (server_prompt "hi" ""),
        tts_input := some "Here is a short summary." }) :
        ChatResponse × Trace).1.short_response = "Here is a short summary."
    ∧ (({ long_response := "not json",
          short_response := "Here is a short summary.", audio_url := "",
          media_urls := [], status := 200 },
        { retrieval_query := some "hi",
          llm_prompt := some (server_prompt "hi" ""),
          tts_input := some "Here is a short summary." }) :
          ChatResponse × Trace).2.tts_input =
        some "Here is a short summary." :=
  C9_parse_failure_placeholder
    ⟨Except.ok ⟨"ns1", some []⟩, Except.ok "not json", fun _ => none,
      Except.ok ⟨404, []⟩, "h", "http://h/"⟩
    (some "hi") ⟨"ns1", some []⟩ "not json" _ (by decide) rfl rfl rfl rfl

/-- Claim C10: a message that strips to the empty string takes exactly the
empty-input short-circuit path (the same result as a missing message); for a
message with non-empty stripped text, the stripped text — not the original —
is the string embedded for retrieval and the prompt sent to the LLM is built
from the stripped text. -/
theorem C10_strip_behavior :
    (∀ (o : Oracles) (s : String), pyStrip s = "" →
      chat o (some s) = chat o none)
    ∧ (∀ (o : Oracles) (s : String) (res : ChatResponse × Trace),
        pyStrip s ≠ "" →
        chat o (some s) = Except.ok res →
        res.2.retrieval_query = some (pyStrip s)
        ∧ ∀ p, res.2.llm_prompt = some p →
            ∃ ctx, p = server_prompt (pyStrip s) ctx) := by
  constructor
  · intro o s h
    have h0 : pyStrip ("" : String) = "" := rfl
    simp only [chat, Option.getD_some, Option.getD_none, h, h0]
  · intro o s res hne hok
    rcases hrv : o.retrieval with e | r
    · simp only [chat, Option.getD_some, if_neg hne, hrv] at hok
      injection hok with hok
      rw [← hok]
      exact ⟨rfl, fun p hp => Option.noConfusion hp⟩
    · rcases hl : o.llm with e2 | raw
      · simp only [chat, Option.getD_some, if_neg hne, hrv, hl] at hok
        injection hok with hok
        rw [← hok]
        exact ⟨rfl, fun p hp =>
          ⟨gather_context (r.match_list.getD []), (Option.some.inj hp).symm⟩⟩
      · rcases ht : o.tts_post with e3 | resp
        · simp only [chat, Option.getD_some, if_neg hne, hrv, hl,
            generate_elevenlabs_tts, ht] at hok
          exact Except.noConfusion hok
        · simp only [chat, Option.getD_some, if_neg hne, hrv, hl,
            generate_elevenlabs_tts, ht] at hok
          injection hok with hok
          rw [← hok]
          exact ⟨rfl, fun p hp =>
            ⟨gather_context (r.match_list.getD []), (Option.some.inj hp).symm⟩⟩

/-- Witness for `C10_strip_behavior` at concrete inputs: a pure-whitespace
message equals the missing-message path, and the stripped text of
`" hi "` is what retrieval and the prompt receive. -/
theorem C10_witness :
    chat ⟨Except.ok ⟨"ns1", none⟩, Except.ok "out", fun _ => none,
        Except.ok ⟨404, []⟩, "h", "http://h/"⟩ (some " ") =
      chat ⟨Except.ok ⟨"ns1", none⟩, Except.ok "out", fun _ => none,
        Except.ok ⟨404, []⟩, "h", "http://h/"⟩ none
    ∧ (({ long_response := "out",
          short_response := "Here is a short summary.", audio_url := "",
          media_urls := [], status := 200 },
        { retrieval_query := some "hi",
          llm_prompt := some (server_prompt "hi" ""),
          tts_input := some "Here is a short summary." }) :
          ChatResponse × Trace).2.retrieval_query = some (pyStrip " hi ")
    ∧ ∀ p, (({ long_response := "out",
                 short_response := "Here is a short summary.",
                 audio_url := "", media_urls := [], status := 200 },
               { retrieval_query := some "hi",
                 llm_prompt := some (server_prompt "hi" ""),
                 tts_input := some "Here is a short summary." }) :
                 ChatResponse × Trace).2.llm_prompt = some p →
        ∃ ctx, p = server_prompt (pyStrip " hi ") ctx :=
  ⟨C10_strip_behavior.1 _ " " (by decide),
   (C10_strip_behavior.2
     ⟨Except.ok ⟨"ns1", none⟩, Except.ok "out", fun _ => none,
       Except.ok ⟨404, []⟩, "h", "http://h/"⟩ " hi " _ (by decide) rfl).1,
   (C10_strip_behavior.2
     ⟨Except.ok ⟨"ns1", none⟩, Except.ok "out", fun _ => none,
       Except.ok ⟨404, []⟩, "h", "http://h/"⟩ " hi " _ (by decide) rfl).2⟩

/-- Witness for `C5_empty_message`: a request with no `message` field. -/
theorem C5_witness :
    chat { retrieval := Except.ok ⟨"ns1", some []⟩, llm := Except.ok "x",
           loads := fun _ => none, tts_post := Except.ok ⟨200, [1]⟩,
           uuid_hex := "h", host_url := "http://h/" } none =
      Except.ok
        ({ long_response := "No message received.", short_response := "",
           audio_url := "", media_urls := [], status := 200 },
         { retrieval_query := none, llm_prompt := none, tts_input := none }) :=
  C5_empty_message _ none rfl
